import Mathlib

/-!
Verification of the core game logic of `lunar_lander_cyberpunk.py`.

The physics / state-machine core of the game (`GameConfig`, `Particle`,
`LandingPad`, `Lander` with its methods `handle_input`, `update`,
`emit_thruster_particles`, `update_particles`, `check_landing`) is embedded
shallowly.  Python floats are idealised as rationals.  The two sources of
values the embedding cannot compute exactly are passed in as oracle
parameters:

* `trig : ℚ → ℚ × ℚ` stands for the degree-trigonometry used by pygame's
  `Vector2.rotate`: `trig d = (cos d°, sin d°)`.  Theorems that need a
  concrete trig value state it as a hypothesis (for example
  `trig 0 = (1, 0)`, true of the runtime, where `cos 0 = 1` and
  `sin 0 = 0` hold exactly).
* `fresh : ℕ → Particle` stands for the randomised particle construction in
  `emit_thruster_particles` (random velocity scatter, lifetime in
  `[0.3, 0.6]`, size in `[2, 4]`): `fresh k` is the `k`-th particle built by
  the loop `for _ in range(3)`.

`pygame.Rect` stores integer coordinates; assigning a float position
truncates toward zero, which `truncQ` models.
-/

/-- Lander status; the Python code uses the strings `"flying"`, `"landed"`,
`"crashed"` (`lunar_lander_cyberpunk.py:129`). -/
inductive Status
  | flying
  | landed
  | crashed
  deriving DecidableEq, Repr

/-- A 2-dimensional vector over `ℚ`, modelling `pygame.Vector2`. -/
structure Vec2 where
  x : ℚ
  y : ℚ
  deriving DecidableEq, Repr

/-- Componentwise vector addition. -/
def Vec2.add (v w : Vec2) : Vec2 := ⟨v.x + w.x, v.y + w.y⟩

/-- Scalar multiple `k * v`, modelling `v * dt` on `pygame.Vector2`. -/
def Vec2.scale (k : ℚ) (v : Vec2) : Vec2 := ⟨k * v.x, k * v.y⟩

/-- Rotation of a vector by `deg` degrees counterclockwise, modelling
`pygame.Vector2.rotate(deg)`, with the trigonometry supplied by the oracle
`trig deg = (cos deg°, sin deg°)`. -/
def Vec2.rotate (trig : ℚ → ℚ × ℚ) (deg : ℚ) (v : Vec2) : Vec2 :=
  ⟨v.x * (trig deg).1 - v.y * (trig deg).2,
   v.x * (trig deg).2 + v.y * (trig deg).1⟩

/-- Gameplay tuning constants (`GameConfig` dataclass,
`lunar_lander_cyberpunk.py:49`-`64`).  `screen_size` is split into its two
integer components. -/
structure GameConfig where
  screen_width : ℤ
  screen_height : ℤ
  target_fps : ℤ
  gravity : ℚ
  thrust_force : ℚ
  fuel_capacity : ℚ
  fuel_burn_rate : ℚ
  rotation_speed : ℚ
  landing_pad_width : ℤ
  landing_pad_height : ℤ
  max_landing_speed : ℚ
  max_horizontal_speed : ℚ
  max_landing_angle : ℚ
  star_count : ℤ
  scanline_spacing : ℤ
  deriving DecidableEq, Repr

/-- The default `GameConfig()` values of the dataclass. -/
def defaultConfig : GameConfig :=
  { screen_width := 960
    screen_height := 720
    target_fps := 60
    gravity := 36
    thrust_force := 120
    fuel_capacity := 100
    fuel_burn_rate := 22
    rotation_speed := 90
    landing_pad_width := 160
    landing_pad_height := 12
    max_landing_speed := 42
    max_horizontal_speed := 32
    max_landing_angle := 12
    star_count := 120
    scanline_spacing := 4 }

/-- A thruster particle (`Particle` dataclass,
`lunar_lander_cyberpunk.py:67`-`73`). -/
structure Particle where
  position : Vec2
  velocity : Vec2
  lifetime : ℚ
  color : ℤ × ℤ × ℤ
  size : ℚ
  deriving DecidableEq, Repr

/-- One tick of `Particle.update(dt)` (`lunar_lander_cyberpunk.py:75`-`79`):
moves the particle, decrements its lifetime, shrinks its size, and returns
the mutated particle together with the boolean `lifetime > 0` the method
returns. -/
def Particle.update (dt : ℚ) (p : Particle) : Particle × Bool :=
  let p' : Particle :=
    { p with
      position := p.position.add (Vec2.scale dt p.velocity)
      lifetime := p.lifetime - dt
      size := max 0 (p.size - dt * 6) }
  (p', decide (0 < p'.lifetime))

/-- Executable floor of a rational: Euclidean division of the numerator by
the denominator; proved equal to `Int.floor` below. -/
def ratFloor (q : ℚ) : ℤ := q.num / (q.den : ℤ)

/-- Truncation of a rational toward zero, modelling the C `int` cast pygame
applies when a float coordinate is stored into a `pygame.Rect`. -/
def truncQ (q : ℚ) : ℤ := if q < 0 then -ratFloor (-q) else ratFloor q

/-- An integer axis-aligned rectangle, modelling `pygame.Rect`. -/
structure Rect where
  x : ℤ
  y : ℤ
  w : ℤ
  h : ℤ
  deriving DecidableEq, Repr

/-- The `top` attribute of a `pygame.Rect`. -/
def Rect.top (r : Rect) : ℤ := r.y

/-- The `bottom` attribute of a `pygame.Rect`. -/
def Rect.bottom (r : Rect) : ℤ := r.y + r.h

/-- Assignment `r.center = (cx, cy)` on a `pygame.Rect`: moves the rectangle
so that its centre (up to the integer half-extents `w / 2`, `h / 2`) is at
`(cx, cy)`. -/
def Rect.setCenter (r : Rect) (cx cy : ℤ) : Rect :=
  { r with x := cx - r.w / 2, y := cy - r.h / 2 }

/-- `r.inflate(dx, dy)` on a `pygame.Rect`: grows the rectangle by
`(dx, dy)`, keeping the centre (up to integer division). -/
def Rect.inflate (r : Rect) (dx dy : ℤ) : Rect :=
  ⟨r.x - dx / 2, r.y - dy / 2, r.w + dx, r.h + dy⟩

/-- `a.colliderect(b)` of pygame: true when both rectangles have positive
extent and they strictly overlap (touching edges do not collide). -/
def Rect.colliderect (a b : Rect) : Bool :=
  decide (0 < a.w) && decide (0 < a.h) && decide (0 < b.w) && decide (0 < b.h) &&
  decide (a.x < b.x + b.w) && decide (b.x < a.x + a.w) &&
  decide (a.y < b.y + b.h) && decide (b.y < a.y + a.h)

/-- Python's float `%` for a positive modulus: `pymod a b = a - b * ⌊a / b⌋`,
the representative of `a` in `[0, b)`. -/
def pymod (a b : ℚ) : ℚ := a - b * ((ratFloor (a / b) : ℤ) : ℚ)

/-- The landing pad (`LandingPad.__init__`,
`lunar_lander_cyberpunk.py:91`-`99`). -/
structure LandingPad where
  rect : Rect
  timer : ℚ
  deriving DecidableEq, Repr

/-- `LandingPad.__init__(config)` with the random horizontal centre `x`
supplied as a parameter (the code draws it with `random.randint`): a
`pad_width × pad_height` rectangle centred at
`(x, screen_height - pad_height * 6)`, timer `0`. -/
def LandingPad.init (cfg : GameConfig) (x : ℤ) : LandingPad :=
  { rect := (Rect.mk 0 0 cfg.landing_pad_width cfg.landing_pad_height).setCenter
      x (cfg.screen_height - cfg.landing_pad_height * 6)
    timer := 0 }

/-- `LandingPad.update(dt)`: advances the cosmetic pulse timer. -/
def LandingPad.update (dt : ℚ) (pad : LandingPad) : LandingPad :=
  { pad with timer := pad.timer + dt }

/-- The pressed-state of the keys the game reads, modelling the subset of
`pygame.key.get_pressed()` that `Lander.handle_input` inspects. -/
structure Keys where
  left : Bool
  a : Bool
  right : Bool
  d : Bool
  up : Bool
  w : Bool
  space : Bool
  deriving DecidableEq, Repr

/-- The lander state (`Lander.__init__`,
`lunar_lander_cyberpunk.py:120`-`130`); the stored `config` is kept as a
field like in the Python object. -/
structure Lander where
  config : GameConfig
  position : Vec2
  velocity : Vec2
  angle : ℚ
  fuel : ℚ
  thrusting : Bool
  particles : List Particle
  status : Status
  status_timer : ℚ
  deriving DecidableEq, Repr

/-- `Lander.__init__(config, start_pos)`. -/
def Lander.init (cfg : GameConfig) (start_pos : Vec2) : Lander :=
  { config := cfg
    position := start_pos
    velocity := ⟨0, 0⟩
    angle := 0
    fuel := cfg.fuel_capacity
    thrusting := false
    particles := []
    status := Status.flying
    status_timer := 0 }

/-- `Lander.reset(config, start_pos)` re-runs `__init__`. -/
def Lander.reset (cfg : GameConfig) (start_pos : Vec2) (_l : Lander) : Lander :=
  Lander.init cfg start_pos

/-- `Lander.handle_input(keys, dt)` (`lunar_lander_cyberpunk.py:135`-`144`):
clears the `thrusting` flag, returns early when not flying, otherwise
rotates on left/right keys and arms thrust when an up key is held and fuel
remains. -/
def Lander.handle_input (keys : Keys) (dt : ℚ) (l : Lander) : Lander :=
  let l0 := { l with thrusting := false }
  if l0.status ≠ Status.flying then l0
  else
    let l1 :=
      if keys.left = true ∨ keys.a = true then
        { l0 with angle := l0.angle + l0.config.rotation_speed * dt }
      else l0
    let l2 :=
      if keys.right = true ∨ keys.d = true then
        { l1 with angle := l1.angle - l1.config.rotation_speed * dt }
      else l1
    if (keys.up = true ∨ keys.w = true ∨ keys.space = true) ∧ 0 < l2.fuel then
      { l2 with thrusting := true }
    else l2

/-- The thrust vector `Vector2(0, -thrust_force).rotate(-angle)` of
`Lander.update` (`lunar_lander_cyberpunk.py:155`). -/
def Lander.thrust_vector (trig : ℚ → ℚ × ℚ) (l : Lander) : Vec2 :=
  Vec2.rotate trig (-l.angle) ⟨0, -l.config.thrust_force⟩

/-- The acceleration `Lander.update` integrates with: gravity, plus the
thrust vector when thrust is armed and fuel remains
(`lunar_lander_cyberpunk.py:151`-`156`). -/
def Lander.accel (trig : ℚ → ℚ × ℚ) (l : Lander) : Vec2 :=
  if l.thrusting = true ∧ 0 < l.fuel then
    (Vec2.mk 0 l.config.gravity).add (l.thrust_vector trig)
  else ⟨0, l.config.gravity⟩

/-- `Lander.emit_thruster_particles` (`lunar_lander_cyberpunk.py:175`-`188`):
appends the 3 particles built by the `for _ in range(3)` loop.  Their
randomised construction (base position offset by a rotated `(0, 20)`,
scattered velocity, random lifetime and size) is abstracted into the oracle
`fresh`. -/
def Lander.emit_thruster_particles (fresh : ℕ → Particle) (l : Lander) : Lander :=
  { l with particles := l.particles ++ (List.range 3).map fresh }

/-- `Lander.update_particles(dt)` (`lunar_lander_cyberpunk.py:190`-`191`):
the Python list comprehension `[p for p in self.particles if p.update(dt)]`
keeps each mutated particle whose `update` returned `True`. -/
def Lander.update_particles (dt : ℚ) (l : Lander) : Lander :=
  { l with
    particles := (l.particles.map (Particle.update dt)).filterMap
      (fun pr => if pr.2 = true then some pr.1 else none) }

/-- `Lander.update(dt)` (`lunar_lander_cyberpunk.py:146`-`173`): when not
flying only `status_timer` advances; otherwise burn fuel and emit particles
when thrusting (else clear the flag), integrate velocity then position
(semi-implicit Euler), clamp the horizontal position to
`[40, screen_width - 40]`, crash when below `screen_height + 80`, and prune
particles. -/
def Lander.update (trig : ℚ → ℚ × ℚ) (fresh : ℕ → Particle) (dt : ℚ)
    (l : Lander) : Lander :=
  if l.status ≠ Status.flying then
    { l with status_timer := l.status_timer + dt }
  else
    let acceleration := l.accel trig
    let l1 :=
      if l.thrusting = true ∧ 0 < l.fuel then
        Lander.emit_thruster_particles fresh
          { l with fuel := max 0 (l.fuel - l.config.fuel_burn_rate * dt) }
      else { l with thrusting := false }
    let velocity1 := l1.velocity.add (Vec2.scale dt acceleration)
    let position1 := l1.position.add (Vec2.scale dt velocity1)
    let clampedX := max 40 (min ((l1.config.screen_width : ℚ) - 40) position1.x)
    let status1 :=
      if (l1.config.screen_height : ℚ) + 80 < position1.y then Status.crashed
      else l1.status
    Lander.update_particles dt
      { l1 with
        velocity := velocity1
        position := ⟨clampedX, position1.y⟩
        status := status1 }

/-- The 42×42 bounding box of `Lander.check_landing`
(`lunar_lander_cyberpunk.py:196`-`197`): `Rect(0, 0, 42, 42)` centred on the
(truncated) lander position. -/
def Lander.lander_rect (l : Lander) : Rect :=
  (Rect.mk 0 0 42 42).setCenter (truncQ l.position.x) (truncQ l.position.y)

/-- The touchdown condition of `Lander.check_landing`
(`lunar_lander_cyberpunk.py:199`-`206`): slow enough vertically and
horizontally, and the angle normalised into `[-180, 180)` within the landing
angle threshold. -/
def Lander.gentle_touchdown (l : Lander) : Prop :=
  |l.velocity.y| ≤ l.config.max_landing_speed ∧
  |l.velocity.x| ≤ l.config.max_horizontal_speed ∧
  |pymod (l.angle + 180) 360 - 180| ≤ l.config.max_landing_angle

instance (l : Lander) : Decidable l.gentle_touchdown := by
  unfold Lander.gentle_touchdown; infer_instance

/-- `Lander.check_landing(pad)` (`lunar_lander_cyberpunk.py:193`-`210`):
no-op unless flying; when the bounding box has reached the pad top and
overlaps the inflated pad, classify as landed or crashed and zero the
status timer. -/
def Lander.check_landing (pad : LandingPad) (l : Lander) : Lander :=
  if l.status ≠ Status.flying then l
  else if pad.rect.top ≤ l.lander_rect.bottom ∧
      l.lander_rect.colliderect (pad.rect.inflate 40 12) = true then
    if l.gentle_touchdown then
      { l with status := Status.landed, status_timer := 0 }
    else
      { l with status := Status.crashed, status_timer := 0 }
  else l

/-- One input-plus-physics step of the main loop
(`lunar_lander_cyberpunk.py:416`-`417`): `handle_input` then `update`. -/
def Lander.step (trig : ℚ → ℚ × ℚ) (fresh : ℕ → Particle) (keys : Keys)
    (dt : ℚ) (l : Lander) : Lander :=
  (l.handle_input keys dt).update trig fresh dt

/-- Folding `step` over a list of frame times. -/
def Lander.run (trig : ℚ → ℚ × ℚ) (fresh : ℕ → Particle) (keys : Keys)
    (dts : List ℚ) (l : Lander) : Lander :=
  dts.foldl (fun s dt => s.step trig fresh keys dt) l

/-- One full frame of the main loop
(`lunar_lander_cyberpunk.py:416`-`418`): `handle_input`, `update`,
`check_landing`. -/
def Lander.frame (trig : ℚ → ℚ × ℚ) (fresh : ℕ → Particle) (keys : Keys)
    (pad : LandingPad) (dt : ℚ) (l : Lander) : Lander :=
  ((l.handle_input keys dt).update trig fresh dt).check_landing pad

/-- Folding `frame` over a list of frame times. -/
def Lander.runFrames (trig : ℚ → ℚ × ℚ) (fresh : ℕ → Particle) (keys : Keys)
    (pad : LandingPad) (dts : List ℚ) (l : Lander) : Lander :=
  dts.foldl (fun s dt => s.frame trig fresh keys pad dt) l

/-! ### Concrete fixtures used by witnesses and counterexamples -/

/-- Trig oracle agreeing with real degree-trigonometry at `0`. -/
def witTrig : ℚ → ℚ × ℚ := fun _ => (1, 0)

/-- A concrete fresh-particle oracle. -/
def witFresh : ℕ → Particle := fun _ => ⟨⟨0, 0⟩, ⟨0, 0⟩, 1/2, (0, 255, 255), 3⟩

/-- No key pressed. -/
def keysIdle : Keys := ⟨false, false, false, false, false, false, false⟩

/-- Only the up-arrow (thrust) key pressed. -/
def keysThrust : Keys := ⟨false, false, false, false, true, false, false⟩

/-- A concrete landing pad with horizontal centre 480. -/
def witPad : LandingPad := LandingPad.init defaultConfig 480

/-- The lander at game start (`run_game` spawns it at `(480, 140)`). -/
def witLander : Lander := Lander.init defaultConfig ⟨480, 140⟩

/-- A crashed lander whose `thrusting` flag is still set. -/
def witCrashedThrusting : Lander :=
  { witLander with status := Status.crashed, thrusting := true }

/-- A flying lander hovering just over the pad, slow and level. -/
def witOverPad : Lander :=
  { witLander with position := ⟨480, 630⟩, velocity := ⟨0, 10⟩ }

/-- A flying lander over the pad descending far too fast. -/
def witFast : Lander :=
  { witLander with position := ⟨480, 630⟩, velocity := ⟨0, 100⟩ }

/-! ### Helper lemmas -/

/-- `ratFloor` agrees with the mathematical floor on `ℚ`. -/
theorem ratFloor_eq_floor (q : ℚ) : ratFloor q = Int.floor q :=
  Rat.floor_def.symm

/-- When not flying, `update` only advances the status timer. -/
theorem update_not_flying (trig : ℚ → ℚ × ℚ) (fresh : ℕ → Particle) (dt : ℚ)
    (l : Lander) (h : l.status ≠ Status.flying) :
    l.update trig fresh dt = { l with status_timer := l.status_timer + dt } := by
  unfold Lander.update
  rw [if_pos h]

/-- When not flying, `handle_input` only clears the thrust flag. -/
theorem handle_input_not_flying (keys : Keys) (dt : ℚ) (l : Lander)
    (h : l.status ≠ Status.flying) :
    l.handle_input keys dt = { l with thrusting := false } := by
  unfold Lander.handle_input
  rw [if_pos h]

/-- When not flying, `check_landing` is the identity. -/
theorem check_landing_not_flying (pad : LandingPad) (l : Lander)
    (h : l.status ≠ Status.flying) :
    l.check_landing pad = l := by
  unfold Lander.check_landing
  rw [if_pos h]

/-- `check_landing` touches at most `status` and `status_timer`. -/
theorem check_landing_fields (pad : LandingPad) (l : Lander) :
    (l.check_landing pad).config = l.config ∧
    (l.check_landing pad).position = l.position ∧
    (l.check_landing pad).velocity = l.velocity ∧
    (l.check_landing pad).angle = l.angle ∧
    (l.check_landing pad).fuel = l.fuel ∧
    (l.check_landing pad).thrusting = l.thrusting ∧
    (l.check_landing pad).particles = l.particles := by
  unfold Lander.check_landing
  split
  · simp
  · split
    · split <;> simp
    · simp

/-- `handle_input` touches at most `angle` and `thrusting`. -/
theorem handle_input_fields (keys : Keys) (dt : ℚ) (l : Lander) :
    (l.handle_input keys dt).config = l.config ∧
    (l.handle_input keys dt).position = l.position ∧
    (l.handle_input keys dt).velocity = l.velocity ∧
    (l.handle_input keys dt).fuel = l.fuel ∧
    (l.handle_input keys dt).particles = l.particles ∧
    (l.handle_input keys dt).status = l.status ∧
    (l.handle_input keys dt).status_timer = l.status_timer := by
  unfold Lander.handle_input
  dsimp only
  refine ⟨?_, ?_, ?_, ?_, ?_, ?_, ?_⟩ <;> (repeat' split) <;> rfl

/-- A full frame on a non-flying lander clears `thrusting` and advances the
status timer, leaving everything else unchanged. -/
theorem frame_not_flying (trig : ℚ → ℚ × ℚ) (fresh : ℕ → Particle)
    (keys : Keys) (pad : LandingPad) (dt : ℚ) (l : Lander)
    (h : l.status ≠ Status.flying) :
    l.frame trig fresh keys pad dt =
      { l with thrusting := false, status_timer := l.status_timer + dt } := by
  unfold Lander.frame
  rw [handle_input_not_flying keys dt l h]
  rw [update_not_flying trig fresh dt { l with thrusting := false } h]
  rw [check_landing_not_flying pad
    { l with thrusting := false, status_timer := l.status_timer + dt } h]

/-- Full characterisation of `update` on a flying lander with thrust armed
and fuel remaining. -/
theorem update_flying_thrust (trig : ℚ → ℚ × ℚ) (fresh : ℕ → Particle)
    (dt : ℚ) (l : Lander) (h : l.status = Status.flying)
    (ht : l.thrusting = true ∧ 0 < l.fuel) :
    l.update trig fresh dt =
      let v1 := l.velocity.add (Vec2.scale dt (l.accel trig))
      let p1 := l.position.add (Vec2.scale dt v1)
      { config := l.config
        position := ⟨max 40 (min ((l.config.screen_width : ℚ) - 40) p1.x), p1.y⟩
        velocity := v1
        angle := l.angle
        fuel := max 0 (l.fuel - l.config.fuel_burn_rate * dt)
        thrusting := l.thrusting
        particles := ((l.particles ++ (List.range 3).map fresh).map
            (Particle.update dt)).filterMap
          (fun pr => if pr.2 = true then some pr.1 else none)
        status :=
          if (l.config.screen_height : ℚ) + 80 < p1.y then Status.crashed
          else Status.flying
        status_timer := l.status_timer } := by
  unfold Lander.update Lander.emit_thruster_particles Lander.update_particles
  rw [if_neg (by simp [h])]
  dsimp only
  rw [if_pos ht]
  simp [h]

/-- Full characterisation of `update` on a flying lander with no effective
thrust (flag clear or fuel exhausted). -/
theorem update_flying_nothrust (trig : ℚ → ℚ × ℚ) (fresh : ℕ → Particle)
    (dt : ℚ) (l : Lander) (h : l.status = Status.flying)
    (ht : ¬(l.thrusting = true ∧ 0 < l.fuel)) :
    l.update trig fresh dt =
      let v1 := l.velocity.add (Vec2.scale dt (l.accel trig))
      let p1 := l.position.add (Vec2.scale dt v1)
      { config := l.config
        position := ⟨max 40 (min ((l.config.screen_width : ℚ) - 40) p1.x), p1.y⟩
        velocity := v1
        angle := l.angle
        fuel := l.fuel
        thrusting := false
        particles := (l.particles.map (Particle.update dt)).filterMap
          (fun pr => if pr.2 = true then some pr.1 else none)
        status :=
          if (l.config.screen_height : ℚ) + 80 < p1.y then Status.crashed
          else Status.flying
        status_timer := l.status_timer } := by
  unfold Lander.update Lander.update_particles
  rw [if_neg (by simp [h])]
  dsimp only
  rw [if_neg ht]
  simp [h]

/-- `check_landing` away from the pad is the identity. -/
theorem check_landing_no_overlap (pad : LandingPad) (l : Lander)
    (h : l.status = Status.flying)
    (hov : ¬(pad.rect.top ≤ l.lander_rect.bottom ∧
      l.lander_rect.colliderect (pad.rect.inflate 40 12) = true)) :
    l.check_landing pad = l := by
  unfold Lander.check_landing
  rw [if_neg (by simp [h]), if_neg hov]

/-- `check_landing` on a gentle overlap lands the lander. -/
theorem check_landing_touchdown (pad : LandingPad) (l : Lander)
    (h : l.status = Status.flying)
    (hov : pad.rect.top ≤ l.lander_rect.bottom ∧
      l.lander_rect.colliderect (pad.rect.inflate 40 12) = true)
    (ht : l.gentle_touchdown) :
    l.check_landing pad = { l with status := Status.landed, status_timer := 0 } := by
  unfold Lander.check_landing
  rw [if_neg (by simp [h]), if_pos hov, if_pos ht]

/-- `check_landing` on a rough overlap crashes the lander. -/
theorem check_landing_crash (pad : LandingPad) (l : Lander)
    (h : l.status = Status.flying)
    (hov : pad.rect.top ≤ l.lander_rect.bottom ∧
      l.lander_rect.colliderect (pad.rect.inflate 40 12) = true)
    (ht : ¬ l.gentle_touchdown) :
    l.check_landing pad = { l with status := Status.crashed, status_timer := 0 } := by
  unfold Lander.check_landing
  rw [if_neg (by simp [h]), if_pos hov, if_neg ht]

/-- C9: `check_landing` never modifies the lander's position, velocity,
angle, fuel, thrusting flag, or particle collection (nor its stored config);
the only fields it may write are `status` and `status_timer`. -/
theorem c9_check_landing_writes_only_status (pad : LandingPad) (l : Lander) :
    (l.check_landing pad).position = l.position ∧
    (l.check_landing pad).velocity = l.velocity ∧
    (l.check_landing pad).angle = l.angle ∧
    (l.check_landing pad).fuel = l.fuel ∧
    (l.check_landing pad).thrusting = l.thrusting ∧
    (l.check_landing pad).particles = l.particles ∧
    (l.check_landing pad).config = l.config := by
  obtain ⟨hc, hp, hv, ha, hf, ht, hpa⟩ := check_landing_fields pad l
  exact ⟨hp, hv, ha, hf, ht, hpa, hc⟩

/-- C6: the landing-angle check treats an angle of 350° like −10°: two
landers identical except for those two angles get the same status from
`check_landing`, the normalised angle delta being 10 for both. -/
theorem c6_angle_wraparound (pad : LandingPad) (l : Lander) :
    (Lander.check_landing pad { l with angle := (350 : ℚ) }).status =
      (Lander.check_landing pad { l with angle := (-10 : ℚ) }).status := by
  by_cases hst : l.status = Status.flying
  · by_cases hov : pad.rect.top ≤ (Lander.lander_rect { l with angle := (350 : ℚ) }).bottom ∧
        (Lander.lander_rect { l with angle := (350 : ℚ) }).colliderect
          (pad.rect.inflate 40 12) = true
    · have htd : Lander.gentle_touchdown { l with angle := (350 : ℚ) } ↔
          Lander.gentle_touchdown { l with angle := (-10 : ℚ) } := by
        unfold Lander.gentle_touchdown
        dsimp only
        have e1 : pymod ((350 : ℚ) + 180) 360 - 180 = -10 := by
          simp only [pymod, ratFloor_eq_floor]; norm_num
        have e2 : pymod ((-10 : ℚ) + 180) 360 - 180 = -10 := by
          simp only [pymod, ratFloor_eq_floor]; norm_num
        rw [e1, e2]
      by_cases ht : Lander.gentle_touchdown { l with angle := (350 : ℚ) }
      · rw [check_landing_touchdown pad { l with angle := (350 : ℚ) } hst hov ht,
            check_landing_touchdown pad { l with angle := (-10 : ℚ) } hst hov (htd.mp ht)]
      · rw [check_landing_crash pad { l with angle := (350 : ℚ) } hst hov ht,
            check_landing_crash pad { l with angle := (-10 : ℚ) } hst hov
              (fun hh => ht (htd.mpr hh))]
    · rw [check_landing_no_overlap pad { l with angle := (350 : ℚ) } hst hov,
          check_landing_no_overlap pad { l with angle := (-10 : ℚ) } hst hov]
  · rw [check_landing_not_flying pad { l with angle := (350 : ℚ) } hst,
        check_landing_not_flying pad { l with angle := (-10 : ℚ) } hst]

/-- C5 counterexample: `handle_input` is not a no-op on a crashed lander
whose `thrusting` flag is set — the method clears the flag before the
status check. -/
theorem c5_counterexample :
    Lander.handle_input keysIdle 1 witCrashedThrusting ≠ witCrashedThrusting := by
  decide

/-- C5 amended: on a lander that is not flying, `handle_input` sets
`thrusting` to `false` and leaves every other field unchanged, for any key
state and any `dt`. -/
theorem c5_amended_not_flying_clears_thrust (keys : Keys) (dt : ℚ) (l : Lander)
    (h : l.status ≠ Status.flying) :
    l.handle_input keys dt = { l with thrusting := false } :=
  handle_input_not_flying keys dt l h

/-- Witness for the amended C5 at a concrete crashed lander. -/
theorem c5_amended_witness :
    Lander.handle_input keysIdle 1 witCrashedThrusting =
      { witCrashedThrusting with thrusting := false } :=
  c5_amended_not_flying_clears_thrust keysIdle 1 witCrashedThrusting (by decide)

/-- C1: over a full frame (`handle_input`, `update`, `check_landing`) the
status changes only from flying to landed or crashed; and on a non-flying
lander the frame leaves position, velocity, angle and status unchanged,
only advancing `status_timer` by `dt`. -/
theorem c1_status_machine (trig : ℚ → ℚ × ℚ) (fresh : ℕ → Particle)
    (keys : Keys) (pad : LandingPad) (dt : ℚ) (l : Lander) :
    ((l.frame trig fresh keys pad dt).status ≠ l.status →
      l.status = Status.flying ∧
        ((l.frame trig fresh keys pad dt).status = Status.landed ∨
          (l.frame trig fresh keys pad dt).status = Status.crashed)) ∧
    (l.status ≠ Status.flying →
      (l.frame trig fresh keys pad dt).position = l.position ∧
      (l.frame trig fresh keys pad dt).velocity = l.velocity ∧
      (l.frame trig fresh keys pad dt).angle = l.angle ∧
      (l.frame trig fresh keys pad dt).status = l.status ∧
      (l.frame trig fresh keys pad dt).status_timer = l.status_timer + dt) := by
  constructor
  · intro hne
    by_cases h : l.status = Status.flying
    · refine ⟨h, ?_⟩
      rcases hs : (l.frame trig fresh keys pad dt).status
      · exact absurd (hs.trans h.symm) hne
      · exact Or.inl rfl
      · exact Or.inr rfl
    · rw [frame_not_flying trig fresh keys pad dt l h] at hne
      exact absurd rfl hne
  · intro h
    rw [frame_not_flying trig fresh keys pad dt l h]
    exact ⟨rfl, rfl, rfl, rfl, rfl⟩

/-- Witness for C1 at a concrete crashed lander and `dt = 1`. -/
theorem c1_witness :
    (witCrashedThrusting.frame witTrig witFresh keysIdle witPad 1).position =
        witCrashedThrusting.position ∧
      (witCrashedThrusting.frame witTrig witFresh keysIdle witPad 1).status_timer =
        witCrashedThrusting.status_timer + 1 := by
  have h := c1_status_machine witTrig witFresh keysIdle witPad 1 witCrashedThrusting
  exact ⟨(h.2 (by decide)).1, (h.2 (by decide)).2.2.2.2⟩

/-- C2: for a flying lander whose 42×42 box has reached the pad top and
overlaps the inflated pad, `check_landing` lands the craft iff the vertical
speed, horizontal speed and normalised angle are all within their
thresholds, and otherwise crashes it. -/
theorem c2_landing_classification (pad : LandingPad) (l : Lander)
    (hst : l.status = Status.flying)
    (hov : pad.rect.top ≤ l.lander_rect.bottom ∧
      l.lander_rect.colliderect (pad.rect.inflate 40 12) = true) :
    ((l.check_landing pad).status = Status.landed ↔
      (|l.velocity.y| ≤ l.config.max_landing_speed ∧
       |l.velocity.x| ≤ l.config.max_horizontal_speed ∧
       |pymod (l.angle + 180) 360 - 180| ≤ l.config.max_landing_angle)) ∧
    ((l.check_landing pad).status = Status.crashed ↔
      ¬(|l.velocity.y| ≤ l.config.max_landing_speed ∧
        |l.velocity.x| ≤ l.config.max_horizontal_speed ∧
        |pymod (l.angle + 180) 360 - 180| ≤ l.config.max_landing_angle)) := by
  by_cases ht : l.gentle_touchdown
  · rw [check_landing_touchdown pad l hst hov ht]
    exact ⟨iff_of_true rfl ht, iff_of_false (by simp) (not_not_intro ht)⟩
  · rw [check_landing_crash pad l hst hov ht]
    exact ⟨iff_of_false (by simp) ht, iff_of_true rfl ht⟩

/-- Witness for C2: the slow, level lander over the concrete pad lands. -/
theorem c2_witness : (witOverPad.check_landing witPad).status = Status.landed := by
  have h := c2_landing_classification witPad witOverPad rfl (by decide)
  refine h.1.mpr ⟨?_, ?_, ?_⟩
  · show |(10 : ℚ)| ≤ 42
    norm_num
  · show |(0 : ℚ)| ≤ 32
    norm_num
  · show |pymod ((0 : ℚ) + 180) 360 - 180| ≤ 12
    simp only [pymod, ratFloor_eq_floor]
    norm_num

/-- C7: after `update` on a flying lander the horizontal position lies in
`[40, screen_width - 40]`, and the velocity is exactly the integrated
(pre-clamp) value — the clamp never touches velocity. -/
theorem c7_horizontal_clamp (trig : ℚ → ℚ × ℚ) (fresh : ℕ → Particle)
    (dt : ℚ) (l : Lander) (hst : l.status = Status.flying)
    (hw : (80 : ℤ) ≤ l.config.screen_width) :
    40 ≤ (l.update trig fresh dt).position.x ∧
    (l.update trig fresh dt).position.x ≤ (l.config.screen_width : ℚ) - 40 ∧
    (l.update trig fresh dt).velocity =
      l.velocity.add (Vec2.scale dt (l.accel trig)) := by
  have hw' : (40 : ℚ) ≤ (l.config.screen_width : ℚ) - 40 := by
    have h80 : (80 : ℚ) ≤ (l.config.screen_width : ℚ) := by exact_mod_cast hw
    linarith
  by_cases ht : l.thrusting = true ∧ 0 < l.fuel
  · rw [update_flying_thrust trig fresh dt l hst ht]
    dsimp only
    exact ⟨le_max_left _ _, max_le hw' (min_le_left _ _), rfl⟩
  · rw [update_flying_nothrust trig fresh dt l hst ht]
    dsimp only
    exact ⟨le_max_left _ _, max_le hw' (min_le_left _ _), rfl⟩

/-- Witness for C7 at the concrete start lander with `dt = 1`. -/
theorem c7_witness :
    40 ≤ (witLander.update witTrig witFresh 1).position.x ∧
    (witLander.update witTrig witFresh 1).position.x ≤
      (witLander.config.screen_width : ℚ) - 40 ∧
    (witLander.update witTrig witFresh 1).velocity =
      witLander.velocity.add (Vec2.scale 1 (witLander.accel witTrig)) :=
  c7_horizontal_clamp witTrig witFresh 1 witLander rfl (by decide)

/-- C4: a flying, thrusting lander with fuel burns exactly
`max 0 (fuel - burn_rate * dt)`; fuel never increases under any operation,
never goes negative, and stays below capacity. -/
theorem c4_fuel (trig : ℚ → ℚ × ℚ) (fresh : ℕ → Particle) (keys : Keys)
    (pad : LandingPad) (dt : ℚ) (l : Lander)
    (hdt : 0 ≤ dt) (hrate : 0 ≤ l.config.fuel_burn_rate)
    (hf0 : 0 ≤ l.fuel) (hfc : l.fuel ≤ l.config.fuel_capacity) :
    (l.status = Status.flying → l.thrusting = true → 0 < l.fuel →
      (l.update trig fresh dt).fuel =
        max 0 (l.fuel - l.config.fuel_burn_rate * dt)) ∧
    (l.update trig fresh dt).fuel ≤ l.fuel ∧
    0 ≤ (l.update trig fresh dt).fuel ∧
    (l.update trig fresh dt).fuel ≤ l.config.fuel_capacity ∧
    (l.handle_input keys dt).fuel = l.fuel ∧
    (l.check_landing pad).fuel = l.fuel := by
  have hhi := (handle_input_fields keys dt l).2.2.2.1
  have hcl := (check_landing_fields pad l).2.2.2.2.1
  by_cases hst : l.status = Status.flying
  · by_cases ht : l.thrusting = true ∧ 0 < l.fuel
    · rw [update_flying_thrust trig fresh dt l hst ht]
      dsimp only
      have hmono : max 0 (l.fuel - l.config.fuel_burn_rate * dt) ≤ l.fuel :=
        max_le hf0 (sub_le_self _ (mul_nonneg hrate hdt))
      exact ⟨fun _ _ _ => rfl, hmono, le_max_left _ _, le_trans hmono hfc, hhi, hcl⟩
    · rw [update_flying_nothrust trig fresh dt l hst ht]
      dsimp only
      exact ⟨fun _ h2 h3 => absurd ⟨h2, h3⟩ ht, le_refl _, hf0, hfc, hhi, hcl⟩
  · rw [update_not_flying trig fresh dt l hst]
    exact ⟨fun h1 => absurd h1 hst, le_refl _, hf0, hfc, hhi, hcl⟩

/-- Witness for C4 at a concrete flying, thrusting lander with `dt = 1`. -/
theorem c4_witness :
    (Lander.update witTrig witFresh 1 { witLander with thrusting := true }).fuel =
      max 0 ({ witLander with thrusting := true }.fuel -
        { witLander with thrusting := true }.config.fuel_burn_rate * 1) ∧
    (Lander.update witTrig witFresh 1 { witLander with thrusting := true }).fuel ≤
      { witLander with thrusting := true }.fuel := by
  have h := c4_fuel witTrig witFresh keysThrust witPad 1
    { witLander with thrusting := true } (by decide) (by decide) (by decide) (by decide)
  exact ⟨h.1 rfl rfl (by decide), h.2.1⟩

/-- C8: a flying `update` maps the particle list (old particles plus the 3
spawned ones when thrusting) through a lifetime decrement of `dt` and keeps
exactly those with positive remaining lifetime, so no dead particle
survives an update; and positivity of all lifetimes is preserved by
`update` from any status. -/
theorem c8_particle_lifecycle (trig : ℚ → ℚ × ℚ) (fresh : ℕ → Particle)
    (dt : ℚ) (l : Lander) :
    (l.status = Status.flying →
      (l.update trig fresh dt).particles =
        ((l.particles ++
            (if l.thrusting = true ∧ 0 < l.fuel then (List.range 3).map fresh
             else [])).map (Particle.update dt)).filterMap
          (fun pr => if pr.2 = true then some pr.1 else none) ∧
      ∀ p ∈ (l.update trig fresh dt).particles, 0 < p.lifetime) ∧
    ((∀ p ∈ l.particles, 0 < p.lifetime) →
      ∀ p ∈ (l.update trig fresh dt).particles, 0 < p.lifetime) := by
  have main : l.status = Status.flying →
      (l.update trig fresh dt).particles =
        ((l.particles ++
            (if l.thrusting = true ∧ 0 < l.fuel then (List.range 3).map fresh
             else [])).map (Particle.update dt)).filterMap
          (fun pr => if pr.2 = true then some pr.1 else none) := by
    intro hst
    by_cases ht : l.thrusting = true ∧ 0 < l.fuel
    · rw [update_flying_thrust trig fresh dt l hst ht, if_pos ht]
    · rw [update_flying_nothrust trig fresh dt l hst ht, if_neg ht]
      simp
  have pos : l.status = Status.flying →
      ∀ p ∈ (l.update trig fresh dt).particles, 0 < p.lifetime := by
    intro hst p hp
    rw [main hst] at hp
    simp only [List.mem_filterMap, List.mem_map] at hp
    obtain ⟨pr, ⟨q, _, rfl⟩, hif⟩ := hp
    by_cases h2 : (Particle.update dt q).2 = true
    · rw [if_pos h2] at hif
      have hq : 0 < (Particle.update dt q).1.lifetime := of_decide_eq_true h2
      rw [Option.some_inj] at hif
      rw [← hif]
      exact hq
    · rw [if_neg h2] at hif
      exact absurd hif (Option.some_ne_none p).symm
  refine ⟨fun hst => ⟨main hst, pos hst⟩, ?_⟩
  intro hinv p hp
  by_cases hst : l.status = Status.flying
  · exact pos hst p hp
  · rw [update_not_flying trig fresh dt l hst] at hp
    exact hinv p hp

/-- Witness for C8 at a concrete flying, thrusting lander with `dt = 1`. -/
theorem c8_witness :
    ∀ p ∈ (Lander.update witTrig witFresh 1
      { witLander with thrusting := true }).particles, 0 < p.lifetime :=
  ((c8_particle_lifecycle witTrig witFresh 1
    { witLander with thrusting := true }).1 rfl).2

/-- On a non-flying lander, a sequence of full frames adds the frame times
to `status_timer` and keeps the status. -/
theorem runFrames_not_flying (trig : ℚ → ℚ × ℚ) (fresh : ℕ → Particle)
    (keys : Keys) (pad : LandingPad) :
    ∀ (dts : List ℚ) (l : Lander), l.status ≠ Status.flying →
      (l.runFrames trig fresh keys pad dts).status_timer =
        l.status_timer + dts.sum ∧
      (l.runFrames trig fresh keys pad dts).status = l.status := by
  intro dts
  induction dts with
  | nil =>
    intro l h
    simp [Lander.runFrames]
  | cons d rest ih =>
    intro l h
    have hfr := frame_not_flying trig fresh keys pad d l h
    have hrun : l.runFrames trig fresh keys pad (d :: rest) =
        (l.frame trig fresh keys pad d).runFrames trig fresh keys pad rest := by
      unfold Lander.runFrames
      rw [List.foldl_cons]
    have hstat : (l.frame trig fresh keys pad d).status = l.status := by
      rw [hfr]
    have ih' := ih (l.frame trig fresh keys pad d) (by rw [hstat]; exact h)
    constructor
    · rw [hrun, ih'.1, hfr]
      show l.status_timer + d + rest.sum = l.status_timer + (d :: rest).sum
      rw [List.sum_cons]
      ring
    · rw [hrun, ih'.2, hstat]

/-- C10: whenever `check_landing` assigns a terminal status it also zeroes
`status_timer` in the same call, so afterwards `status_timer` equals
exactly the sum of the frame times of the subsequent frames. -/
theorem c10_terminal_timer (trig : ℚ → ℚ × ℚ) (fresh : ℕ → Particle)
    (keys : Keys) (pad : LandingPad) (dts : List ℚ) (l : Lander)
    (hst : l.status = Status.flying)
    (hterm : (l.check_landing pad).status ≠ Status.flying) :
    (l.check_landing pad).status_timer = 0 ∧
    ((l.check_landing pad).runFrames trig fresh keys pad dts).status_timer =
      dts.sum := by
  have h0 : (l.check_landing pad).status_timer = 0 := by
    by_cases hov : pad.rect.top ≤ l.lander_rect.bottom ∧
        l.lander_rect.colliderect (pad.rect.inflate 40 12) = true
    · by_cases ht : l.gentle_touchdown
      · rw [check_landing_touchdown pad l hst hov ht]
      · rw [check_landing_crash pad l hst hov ht]
    · rw [check_landing_no_overlap pad l hst hov] at hterm
      exact absurd hst hterm
  refine ⟨h0, ?_⟩
  have hr := runFrames_not_flying trig fresh keys pad dts (l.check_landing pad) hterm
  rw [hr.1, h0, zero_add]

/-- Witness for C10: the too-fast lander crashes on the pad, the timer is
zeroed, and two frames of 2 and 3 seconds accumulate a timer of 5. -/
theorem c10_witness :
    (witFast.check_landing witPad).status_timer = 0 ∧
    ((witFast.check_landing witPad).runFrames witTrig witFresh keysIdle witPad
        [2, 3]).status_timer = (5 : ℚ) := by
  have hful : ¬ Lander.gentle_touchdown witFast := by
    intro hh
    have h1 : |(100 : ℚ)| ≤ 42 := hh.1
    norm_num at h1
  have hterm : (witFast.check_landing witPad).status ≠ Status.flying := by
    rw [check_landing_crash witPad witFast rfl (by decide) hful]
    decide
  have h := c10_terminal_timer witTrig witFresh keysIdle witPad [2, 3] witFast rfl hterm
  refine ⟨h.1, ?_⟩
  rw [h.2]
  norm_num

/-- Core induction for C3: with trig exact at 0°, thrust held, no rotation
keys, and time steps summing (with the already-consumed time `s`) to at
most 1 second, the vertical velocity after running the steps is
`-84 * (s + Σ dts)`. -/
theorem c3_aux (trig : ℚ → ℚ × ℚ) (fresh : ℕ → Particle) (keys : Keys)
    (htrig : trig 0 = (1, 0))
    (hup : keys.up = true ∨ keys.w = true ∨ keys.space = true)
    (hleft : keys.left = false) (hka : keys.a = false)
    (hright : keys.right = false) (hkd : keys.d = false) :
    ∀ (dts : List ℚ) (s : ℚ) (l : Lander),
      (∀ d ∈ dts, 0 < d) → 0 ≤ s → s + dts.sum ≤ 1 →
      l.config = defaultConfig → l.status = Status.flying → l.angle = 0 →
      l.fuel = 100 - 22 * s → l.velocity.y = -84 * s → l.position.y ≤ 800 →
      (l.run trig fresh keys dts).velocity.y = -84 * (s + dts.sum) := by
  intro dts
  induction dts with
  | nil =>
    intro s l _ _ _ _ _ _ _ hvy _
    simp only [Lander.run, List.foldl_nil, List.sum_nil, add_zero]
    exact hvy
  | cons d rest ih =>
    intro s l hpos hs hsum hcfg hst hang hfuel hvy hpy
    have hd_pos : 0 < d := hpos d (by simp)
    have hrest_pos : ∀ x ∈ rest, 0 < x := fun x hx => hpos x (by simp [hx])
    have hrest_sum : 0 ≤ rest.sum :=
      List.sum_nonneg (fun x hx => le_of_lt (hrest_pos x hx))
    have hsum_cons : (d :: rest).sum = d + rest.sum := by simp
    have hsd : 0 ≤ s + d := by linarith
    have hsum' : (s + d) + rest.sum ≤ 1 := by
      rw [hsum_cons] at hsum; linarith
    have hs1 : s + d ≤ 1 := by linarith
    have hfuel_pos : 0 < l.fuel := by rw [hfuel]; linarith
    have hhi : l.handle_input keys d = { l with thrusting := true } := by
      unfold Lander.handle_input
      dsimp only
      rw [if_neg (show ¬(l.status ≠ Status.flying) from by simp [hst])]
      rw [if_neg (show ¬(keys.left = true ∨ keys.a = true) from by
        simp [hleft, hka])]
      rw [if_neg (show ¬(keys.right = true ∨ keys.d = true) from by
        simp [hright, hkd])]
      dsimp only
      rw [if_pos (show (keys.up = true ∨ keys.w = true ∨ keys.space = true) ∧
        0 < l.fuel from ⟨hup, hfuel_pos⟩)]
    have haccel : Lander.accel trig { l with thrusting := true } =
        ⟨0, -84⟩ := by
      unfold Lander.accel Lander.thrust_vector Vec2.rotate Vec2.add
      rw [if_pos ⟨rfl, hfuel_pos⟩]
      dsimp only
      rw [hang, hcfg, neg_zero, htrig]
      norm_num [defaultConfig]
    have hupd := update_flying_thrust trig fresh d { l with thrusting := true }
      hst ⟨rfl, hfuel_pos⟩
    have hvyu : (Lander.update trig fresh d
        { l with thrusting := true }).velocity.y = l.velocity.y + d * -84 := by
      rw [hupd]
      dsimp only
      rw [haccel]
      dsimp only [Vec2.add, Vec2.scale]
    have hpyu : (Lander.update trig fresh d
        { l with thrusting := true }).position.y =
        l.position.y + d * (l.velocity.y + d * -84) := by
      rw [hupd]
      dsimp only
      rw [haccel]
      dsimp only [Vec2.add, Vec2.scale]
    have hp1 : l.position.y + d * (l.velocity.y + d * -84) ≤ 800 := by
      rw [hvy]
      nlinarith [mul_nonneg (le_of_lt hd_pos) hs, sq_nonneg d, hpy]
    have hsh : (l.config.screen_height : ℚ) = 720 := by
      rw [hcfg]; norm_num [defaultConfig]
    have hstu : (Lander.update trig fresh d
        { l with thrusting := true }).status = Status.flying := by
      rw [hupd]
      dsimp only
      rw [haccel]
      dsimp only [Vec2.add, Vec2.scale]
      rw [hsh, if_neg (by rw [hvy] at hp1 ⊢; push_neg; linarith)]
    have hbr : l.config.fuel_burn_rate = 22 := by rw [hcfg]; rfl
    have hfud : (Lander.update trig fresh d
        { l with thrusting := true }).fuel = 100 - 22 * (s + d) := by
      rw [hupd]
      dsimp only
      rw [hbr, hfuel, max_eq_right (by linarith)]
      ring
    have hvyd : (Lander.update trig fresh d
        { l with thrusting := true }).velocity.y = -84 * (s + d) := by
      rw [hvyu, hvy]; ring
    have hpyd : (Lander.update trig fresh d
        { l with thrusting := true }).position.y ≤ 800 := by
      rw [hpyu]; exact hp1
    have hangd : (Lander.update trig fresh d
        { l with thrusting := true }).angle = 0 := by
      rw [hupd]
      dsimp only
      exact hang
    have hcfgd : (Lander.update trig fresh d
        { l with thrusting := true }).config = defaultConfig := by
      rw [hupd]
      dsimp only
      exact hcfg
    have hstep : l.step trig fresh keys d =
        Lander.update trig fresh d { l with thrusting := true } := by
      unfold Lander.step
      rw [hhi]
    have hrun : l.run trig fresh keys (d :: rest) =
        (l.step trig fresh keys d).run trig fresh keys rest := by
      unfold Lander.run
      rw [List.foldl_cons]
    have hres := ih (s + d) (Lander.update trig fresh d
        { l with thrusting := true })
      hrest_pos hsd hsum' hcfgd hstu hangd hfud hvyd hpyd
    rw [hrun, hstep, hres, hsum_cons]
    ring

/-- C3: from a flying lander with zero velocity, angle 0, full fuel and the
default config (gravity 36, thrust 120, burn rate 22), holding the thrust
key through `handle_input` and `update` over positive time steps summing to
1 second yields vertical velocity exactly `(36 - 120) * 1 = -84`; the fuel
stays positive throughout.  The hypothesis `position.y ≤ 800` keeps the
off-screen crash check (the landing checks the claim brackets out) from
firing. -/
theorem c3_one_second_burn (trig : ℚ → ℚ × ℚ) (fresh : ℕ → Particle)
    (keys : Keys) (htrig : trig 0 = (1, 0))
    (hup : keys.up = true ∨ keys.w = true ∨ keys.space = true)
    (hleft : keys.left = false) (hka : keys.a = false)
    (hright : keys.right = false) (hkd : keys.d = false)
    (dts : List ℚ) (hpos : ∀ d ∈ dts, 0 < d) (hsum : dts.sum = 1)
    (l : Lander) (hcfg : l.config = defaultConfig)
    (hst : l.status = Status.flying) (hang : l.angle = 0)
    (hfuel : l.fuel = 100) (hvel : l.velocity = ⟨0, 0⟩)
    (hpy : l.position.y ≤ 800) :
    (l.run trig fresh keys dts).velocity.y = -84 := by
  have h := c3_aux trig fresh keys htrig hup hleft hka hright hkd dts 0 l hpos
    le_rfl (by rw [hsum]; norm_num) hcfg hst hang
    (by rw [hfuel]; ring) (by rw [hvel]; show (0 : ℚ) = -84 * 0; ring) hpy
  rw [h, hsum]
  norm_num

/-- Witness for C3: one step of a full second from the game-start state. -/
theorem c3_witness :
    (witLander.run witTrig witFresh keysThrust [1]).velocity.y = -84 :=
  c3_one_second_burn witTrig witFresh keysThrust rfl (Or.inl rfl) rfl rfl rfl rfl
    [1] (by simp) (by simp) witLander rfl rfl rfl rfl rfl (by norm_num [witLander, Lander.init])
